import Mathlib

/-!
Verification of the client-side scripts of this repository: the page-transition
controller and particle system (src/unnamed/part_000), the timeline accordion
(src/assets/js/timeline.js), and the guarded-DOM-lookup conventions shared by
all modules.  Each JavaScript function relevant to the checked properties is
shallowly embedded as a Lean definition; machine-level concerns (rendering,
real timers) are abstracted, but control flow, guard conditions and state
updates follow the source line by line.
-/

namespace SiteScripts

/-! ## Shared DOM / browser data model -/

/-- A DOM region (an element such as `main`, `header`): its inner markup and
its class list (`className` modelled as a token list). -/
structure Region where
  html : String
  cls : List String
deriving DecidableEq, Repr

/-- Resolved URL components as exposed on an anchor element or on
`window.location`. -/
structure Url where
  protocol : String
  hostname : String
  port : String
  href : String
deriving DecidableEq, Repr

/-- The data of an `<a>` element as read by `handleLinkClick`:
`getAttribute('href')` (absent = `none`), the resolved URL components, the
`target` attribute and the presence of a `download` attribute. -/
structure Link where
  href : Option String
  protocol : String
  hostname : String
  port : String
  target : Option String
  download : Bool
deriving DecidableEq, Repr

/-- A parsed HTML document as produced by `DOMParser.parseFromString`:
title, body class list (the body always exists in a parsed document), and the
optional `main`, `header` and `nav` regions (`nav` kept as its outerHTML). -/
structure Document where
  title : String
  bodyClasses : List String
  main : Option Region
  header : Option Region
  nav : Option String
deriving DecidableEq, Repr

/-- A full browser navigation requested by the error fallbacks:
`window.location.href = url` or `window.location.reload()`. -/
inductive PendingLoad
  | assign (url : String)
  | reload
deriving DecidableEq, Repr

/-- The document and script state observed and mutated by the page-transition
module: current location, title, body classes, the three spliced regions, the
transition overlay, the session-history stack of pushed `{url}` entries,
scroll position, the `isTransitioning` flag and any requested full load. -/
structure PTState where
  location : Url
  title : String
  bodyClasses : List String
  main : Option Region
  header : Option Region
  nav : Option String
  overlayPresent : Bool
  overlayActive : Bool
  history : List String
  scrollY : Nat
  isTransitioning : Bool
  pendingLoad : Option PendingLoad
deriving DecidableEq, Repr

/-- `classList.add`: appends the token when missing. -/
def addClass (cs : List String) (c : String) : List String :=
  if c ∈ cs then cs else cs ++ [c]

/-- `classList.remove`: drops the token. -/
def removeClass (cs : List String) (c : String) : List String :=
  cs.filter (fun t => t ≠ c)

/-- JavaScript falsiness of `getAttribute('href')`: `null` or the empty
string. -/
def strFalsy : Option String → Bool
  | none => true
  | some s => s.data.isEmpty

/-- JavaScript `String.prototype.startsWith`, on the character sequences. -/
def strStartsWith (s p : String) : Bool := p.data.isPrefixOf s.data

/-! ## Page-transition controller (src/unnamed/part_000, lines 768-1111) -/

/-- Externally visible actions of a click / popstate handler: cancelling the
default navigation and scheduling the delayed fetch
(`setTimeout(() => fetchPage(url), transitionDuration)`). -/
inductive Effect
  | preventDefault
  | scheduleFetch (url : String)
deriving DecidableEq, Repr

/-- The skip condition of `handleLinkClick` (lines 814-823): no/empty href,
different hostname, fragment link, `mailto:`/`tel:`, `target="_blank"`,
`download` attribute, or a transition already in progress.  Note the source
compares only `link.hostname` with `window.location.hostname`. -/
def shouldSkip (s : PTState) (l : Link) : Bool :=
  let href := l.href.getD ""
  strFalsy l.href ||
    l.hostname != s.location.hostname ||
    strStartsWith href "#" ||
    strStartsWith href "mailto:" ||
    strStartsWith href "tel:" ||
    l.target == some "_blank" ||
    l.download ||
    s.isTransitioning

/-- `navigateTo(url)` (lines 829-853): guard on `isTransitioning`, set the
flag, body class changes, main `fade-out`, overlay activation, then schedule
the fetch after the 400 ms exit animation. -/
def navigateTo (s : PTState) (url : String) : PTState × List Effect :=
  if s.isTransitioning then (s, [])
  else
    ({ s with
        isTransitioning := true,
        bodyClasses := removeClass (addClass s.bodyClasses "transitioning") "page-loaded",
        main := s.main.map (fun m => { m with cls := addClass m.cls "fade-out" }),
        overlayActive := if s.overlayPresent then true else s.overlayActive },
      [Effect.scheduleFetch url])

/-- `handleLinkClick(e)` (lines 800-827): find the closest anchor, apply the
skip condition, otherwise `preventDefault` and `navigateTo(href)`. -/
def handleLinkClickStep (s : PTState) (link : Option Link) : PTState × List Effect :=
  match link with
  | none => (s, [])
  | some l =>
    if shouldSkip s l then (s, [])
    else
      let r := navigateTo s (l.href.getD "")
      (r.1, Effect.preventDefault :: r.2)

/-- `handlePopState(e)` (lines 955-975): guard on `isTransitioning`, set the
flag, the same visual changes, then schedule a fetch of the current
location. -/
def handlePopStateStep (s : PTState) : PTState × List Effect :=
  if s.isTransitioning then (s, [])
  else
    ({ s with
        isTransitioning := true,
        bodyClasses := removeClass (addClass s.bodyClasses "transitioning") "page-loaded",
        main := s.main.map (fun m => { m with cls := addClass m.cls "fade-out" }),
        overlayActive := if s.overlayPresent then true else s.overlayActive },
      [Effect.scheduleFetch s.location.href])

/-- Result of `fetch(url)` as observed by the transition code: a rejected
promise (network error) or a response with its `ok` flag and body text. -/
inductive FetchResult
  | fail
  | success (ok : Bool) (body : String)
deriving DecidableEq, Repr

/-- The region-splicing part shared verbatim by `updatePage` (lines 879-925)
and the pop-state success continuation (lines 982-1022): title, body class
replacement plus `transitioning`, main/header updates guarded on both sides
being present, and nav reconciliation (insert after the header when only the
new document has a nav, remove when only the current one does, replace when
both do), then scroll to top. -/
def spliceRegions (s : PTState) (newDoc : Document) : PTState :=
  let main :=
    match s.main, newDoc.main with
    | some _, some nm => some { html := nm.html, cls := nm.cls }
    | _, _ => s.main
  let header :=
    match s.header, newDoc.header with
    | some _, some nh => some { html := nh.html, cls := nh.cls }
    | _, _ => s.header
  let nav :=
    match newDoc.nav, s.nav with
    | some n, none => if header.isSome then some n else none
    | none, some _ => none
    | some n, some _ => some n
    | none, none => none
  { s with
      title := newDoc.title,
      bodyClasses := addClass newDoc.bodyClasses "transitioning",
      main := main,
      header := header,
      nav := nav,
      scrollY := 0 }

/-- `updatePage(html, url)` (lines 871-925, synchronous part): parse the
fetched markup, push the `{url}` history entry first (updating the location),
then splice the regions. -/
def updatePage (parse : String → Document) (s : PTState) (html : String)
    (url : String) : PTState :=
  let newDoc := parse html
  let pushed := { s with
    history := url :: s.history,
    location := { s.location with href := url } }
  spliceRegions pushed newDoc

/-- `fetchPage(url)` (lines 855-869): a rejected fetch or a non-`ok` response
both land in the catch, which assigns `window.location.href = url`; a
successful `ok` response is parsed and applied by `updatePage`. -/
def fetchPage (parse : String → Document) (s : PTState) (url : String)
    (fr : FetchResult) : PTState :=
  match fr with
  | FetchResult.fail => { s with pendingLoad := some (PendingLoad.assign url) }
  | FetchResult.success ok body =>
    if ok then updatePage parse s body url
    else { s with pendingLoad := some (PendingLoad.assign url) }

/-- The pop-state fetch continuation (lines 975-1051): the response body is
taken without checking `response.ok`; only a rejected promise reaches the
catch, which calls `window.location.reload()`. -/
def popFetch (parse : String → Document) (s : PTState) (url : String)
    (fr : FetchResult) : PTState :=
  match fr with
  | FetchResult.fail => { s with pendingLoad := some PendingLoad.reload }
  | FetchResult.success _ body => spliceRegions s (parse body)

/-- `init()` (lines 779-798): create the overlay when absent and add
`fade-in` to the main region. -/
def initPT (s : PTState) : PTState :=
  { s with
      overlayPresent := true,
      main := s.main.map (fun m => { m with cls := addClass m.cls "fade-in" }) }

/-- The script state right after a full page load of document `d` at location
`loc`: module-level `let isTransitioning = false` followed by `init()`. -/
def pageLoadState (loc : Url) (d : Document) : PTState :=
  initPT
    { location := loc, title := d.title, bodyClasses := d.bodyClasses,
      main := d.main, header := d.header, nav := d.nav,
      overlayPresent := false, overlayActive := false, history := [],
      scrollY := 0, isTransitioning := false, pendingLoad := none }

/-! ### Event traces for the re-entrancy guard -/

/-- The navigation-triggering DOM events. -/
inductive NavEvent
  | click (link : Option Link)
  | pop
deriving Repr

/-- Dispatch one DOM event to its handler. -/
def navStep (s : PTState) (e : NavEvent) : PTState × List Effect :=
  match e with
  | NavEvent.click l => handleLinkClickStep s l
  | NavEvent.pop => handlePopStateStep s

/-- Process a sequence of events, accumulating the emitted effects. -/
def navRun (s : PTState) : List NavEvent → PTState × List Effect
  | [] => (s, [])
  | e :: es =>
    let r := navStep s e
    let rest := navRun r.1 es
    (rest.1, r.2 ++ rest.2)

/-- Whether an effect is the scheduling of a page fetch. -/
def isFetchEffect : Effect → Bool
  | Effect.scheduleFetch _ => true
  | _ => false

/-- Number of fetches scheduled by a list of effects. -/
def fetchCount (effs : List Effect) : Nat :=
  (effs.filter isFetchEffect).length

/-! ## Timeline accordion (src/assets/js/timeline.js, and the duplicated
handler in reinitializeScripts, src/unnamed/part_000 lines 1071-1091).

The accordion state is the set of timeline items currently carrying the
`active` class. -/

/-- A JavaScript runtime error raised by the embedded code. -/
inductive JsError
  | referenceError (name : String)
  | typeError (msg : String)
deriving DecidableEq, Repr

/-- The vertical extent returned by `getBoundingClientRect()` (only `bottom`
is consulted by the scroll step). -/
structure Rect where
  top : ℚ
  bottom : ℚ
deriving DecidableEq, Repr

/-- The header-click handler of `initTimeline` (timeline.js lines 19-49,
state change only): close every other item, then toggle the clicked one. -/
def timelineClick (active : Finset ℕ) (i : ℕ) : Finset ℕ :=
  let isActive := i ∈ active
  let closed := active.filter (fun j => j = i)
  if isActive then closed.erase i else insert i closed

/-- The duplicated header-click handler installed by `reinitializeScripts`
(part_000 lines 1076-1088): close all items, then open the clicked one when
it was not active. -/
def timelineClickReinit (active : Finset ℕ) (i : ℕ) : Finset ℕ :=
  let isActive := i ∈ active
  let closed : Finset ℕ := ∅
  if isActive then closed else insert i closed

/-- The scroll-into-view callback scheduled 100 ms after opening an item
(timeline.js lines 39-47): `document.querySelector('.timeline-container')`
is dereferenced without a null guard; when the container is absent the
`getBoundingClientRect` call throws.  On success, returns whether
`scrollIntoView` is invoked. -/
def timelineScrollStep (container : Option Rect) (itemRect : Rect) :
    Except JsError Bool :=
  match container with
  | none => Except.error (JsError.typeError "container is null")
  | some c => Except.ok (decide (c.bottom < itemRect.bottom))

/-- The whole `initTimeline` click handler: the `.timeline-link` guard, the
state change, and the scheduled scroll check (run only when the clicked item
was being opened). -/
def timelineClickFull (active : Finset ℕ) (i : ℕ) (targetInLink : Bool)
    (container : Option Rect) (itemRect : Rect) :
    Finset ℕ × Option (Except JsError Bool) :=
  if targetInLink then (active, none)
  else if i ∈ active then (timelineClick active i, none)
  else (timelineClick active i, some (timelineScrollStep container itemRect))

/-! ## Particle system (src/unnamed/part_000, lines 1-767) -/

/-- The DOM-visible resources owned by the particle module: the scheduled
animation frame, the three registered listeners, and the canvas element. -/
structure ParticleState where
  animationHandle : Option ℕ
  resizeListener : Bool
  visibilityListener : Bool
  pageshowListener : Bool
  canvasInDoc : Bool
deriving DecidableEq, Repr

/-- The module-level variables declared by the particle IIFE (lines 10-17).
`shootingStarIntervalId`, read by `destroy`, is not among them. -/
def particleModuleVars : List String :=
  ["canvas", "ctx", "stars", "nebulas", "clusters", "spaceDust",
   "animationId", "resizeTimeout", "shootingStarsContainer"]

/-- Whether reading the named variable succeeds; in strict mode an
undeclared name raises a ReferenceError. -/
def varDeclared (n : String) : Bool := particleModuleVars.contains n

/-- `window.ParticleSystem.destroy` (lines 742-755): cancel the animation
frame, then evaluate `if (shootingStarIntervalId)`, then clear the resize
timer, remove the listeners and remove the canvas.  Execution stops at the
first ReferenceError; mutations made before it persist. -/
def ParticleSystem.destroy (s : ParticleState) : ParticleState × Option JsError :=
  if ¬ varDeclared "animationId" then
    (s, some (JsError.referenceError "animationId"))
  else
    let s1 := if s.animationHandle.isSome then { s with animationHandle := none } else s
    if ¬ varDeclared "shootingStarIntervalId" then
      (s1, some (JsError.referenceError "shootingStarIntervalId"))
    else if ¬ varDeclared "resizeTimeout" then
      (s1, some (JsError.referenceError "resizeTimeout"))
    else
      ({ s1 with
          resizeListener := false, visibilityListener := false,
          pageshowListener := false, canvasInDoc := false }, none)

/-! ### Particle creation (`createStars` and helpers, lines 240-413)

`Math.random()` is modelled as a stream `r : ℕ → ℚ` of samples in `[0, 1)`,
consumed left to right in source order; `Math.sqrt` and `Math.PI` are
abstract primitives (the checked bounds do not depend on their values). -/

/-- Abstract numeric primitives used by the particle code. -/
structure MathPrims where
  sqrt : ℚ → ℚ
  pi : ℚ

/-- Parallax layer of a star. -/
inductive StarLayer
  | distant
  | mid
  | near
deriving DecidableEq, Repr

/-- One star record as pushed by `createStars`. -/
structure Star where
  x : ℚ
  y : ℚ
  size : ℚ
  colorIdx : ℤ
  twinkleSpeed : ℚ
  twinklePhase : ℚ
  minOpacity : ℚ
  maxOpacity : ℚ
  vx : ℚ
  vy : ℚ
  initialDistance : ℚ
  layer : StarLayer

/-- The per-layer numeric ranges of the three star-creation loops. -/
structure StarParams where
  speedBase : ℚ
  speedVar : ℚ
  sizeMul : ℚ
  sizeAdd : ℚ
  colorCount : ℕ
  twBase : ℚ
  twVar : ℚ
  minOpBase : ℚ
  minOpVar : ℚ
  maxOpBase : ℚ
  maxOpVar : ℚ

/-- One iteration of a star-creation loop (lines 246-268 and its two
analogues): position uniform over the canvas, outward velocity away from the
centre, and the layer's randomized appearance parameters.  `b` is the index
of the first `Math.random()` call of this iteration. -/
def mkStar (m : MathPrims) (r : ℕ → ℚ) (b : ℕ) (w h : ℚ) (p : StarParams)
    (layer : StarLayer) : Star :=
  let x := r b * w
  let y := r (b + 1) * h
  let cx := w / 2
  let cy := h / 2
  let dx := x - cx
  let dy := y - cy
  let distance := m.sqrt (dx * dx + dy * dy)
  let speed := p.speedBase + r (b + 2) * p.speedVar
  { x := x, y := y,
    size := r (b + 3) * p.sizeMul + p.sizeAdd,
    colorIdx := ⌊r (b + 4) * (p.colorCount : ℚ)⌋,
    twinkleSpeed := p.twBase + r (b + 5) * p.twVar,
    twinklePhase := r (b + 6) * m.pi * 2,
    minOpacity := p.minOpBase + r (b + 7) * p.minOpVar,
    maxOpacity := p.maxOpBase + r (b + 8) * p.maxOpVar,
    vx := if 0 < distance then dx / distance * speed else 0,
    vy := if 0 < distance then dy / distance * speed else 0,
    initialDistance := distance,
    layer := layer }

/-- Ranges of the distant-star loop (lines 246-268). -/
def distantParams : StarParams :=
  { speedBase := 0.05, speedVar := 0.03, sizeMul := 1, sizeAdd := 0.3,
    colorCount := 4, twBase := 0.005, twVar := 0.01,
    minOpBase := 0.2, minOpVar := 0.15, maxOpBase := 0.5, maxOpVar := 0.2 }

/-- Ranges of the mid-star loop (lines 271-293). -/
def midParams : StarParams :=
  { speedBase := 0.12, speedVar := 0.08, sizeMul := 1.5, sizeAdd := 0.5,
    colorCount := 4, twBase := 0.01, twVar := 0.015,
    minOpBase := 0.3, minOpVar := 0.2, maxOpBase := 0.7, maxOpVar := 0.25 }

/-- Ranges of the near-star loop (lines 296-318). -/
def nearParams : StarParams :=
  { speedBase := 0.2, speedVar := 0.15, sizeMul := 2.5, sizeAdd := 1,
    colorCount := 4, twBase := 0.015, twVar := 0.02,
    minOpBase := 0.5, minOpVar := 0.2, maxOpBase := 0.85, maxOpVar := 0.15 }

/-- The `stars` array rebuilt by `createStars` (lines 240-318):
200 distant, 200 mid and 100 near stars, each consuming 9 random samples. -/
def createStarsList (m : MathPrims) (r : ℕ → ℚ) (w h : ℚ) : List Star :=
  ((List.range 200).map fun i => mkStar m r (9 * i) w h distantParams StarLayer.distant) ++
  ((List.range 200).map fun i => mkStar m r (1800 + 9 * i) w h midParams StarLayer.mid) ++
  ((List.range 100).map fun i => mkStar m r (3600 + 9 * i) w h nearParams StarLayer.near)

/-- One nebula record (lines 331-358): 8 random samples per nebula. -/
structure Nebula where
  x : ℚ
  y : ℚ
  size : ℚ
  colorIdx : ℤ
  opacity : ℚ
  pulseSpeed : ℚ
  pulsePhase : ℚ
  vx : ℚ
  vy : ℚ

/-- One iteration of the nebula loop (`createNebulas`, lines 326-359). -/
def mkNebula (m : MathPrims) (r : ℕ → ℚ) (b : ℕ) (w h : ℚ) : Nebula :=
  let colorIdx := ⌊r b * (11 : ℚ)⌋
  let x := r (b + 1) * w
  let y := r (b + 2) * h
  let cx := w / 2
  let cy := h / 2
  let dx := x - cx
  let dy := y - cy
  let distance := m.sqrt (dx * dx + dy * dy)
  let speed := 0.08 + r (b + 3) * 0.04
  { x := x, y := y,
    size := 250 + r (b + 4) * (600 - 250),
    colorIdx := colorIdx,
    opacity := 0.12 * (0.5 + r (b + 5) * 0.5),
    pulseSpeed := 0.002 + r (b + 6) * 0.003,
    pulsePhase := r (b + 7) * m.pi * 2,
    vx := if 0 < distance then dx / distance * speed else 0,
    vy := if 0 < distance then dy / distance * speed else 0 }

/-- `nebulas` rebuilt by `createNebulas`: 8 nebulas, starting after the
4500 samples of the star loops. -/
def createNebulasList (m : MathPrims) (r : ℕ → ℚ) (w h : ℚ) : List Nebula :=
  (List.range 8).map fun i => mkNebula m r (4500 + 8 * i) w h

/-- One cluster record (lines 366-393): 10 random samples per cluster. -/
structure Cluster where
  x : ℚ
  y : ℚ
  size : ℚ
  colorIdx : ℤ
  opacity : ℚ
  pulseSpeed : ℚ
  pulsePhase : ℚ
  vx : ℚ
  vy : ℚ
  elongation : ℚ
  rotation : ℚ

/-- One iteration of the cluster loop (`createClusters`, lines 361-394). -/
def mkCluster (m : MathPrims) (r : ℕ → ℚ) (b : ℕ) (w h : ℚ) : Cluster :=
  let colorIdx := ⌊r b * (4 : ℚ)⌋
  let x := r (b + 1) * w
  let y := r (b + 2) * h
  let cx := w / 2
  let cy := h / 2
  let dx := x - cx
  let dy := y - cy
  let distance := m.sqrt (dx * dx + dy * dy)
  let speed := 0.02 + r (b + 3) * 0.02
  { x := x, y := y,
    size := 80 + r (b + 4) * (150 - 80),
    colorIdx := colorIdx,
    opacity := 0.03 + r (b + 5) * 0.04,
    pulseSpeed := 0.001 + r (b + 6) * 0.002,
    pulsePhase := r (b + 7) * m.pi * 2,
    vx := if 0 < distance then dx / distance * speed else 0,
    vy := if 0 < distance then dy / distance * speed else 0,
    elongation := 0.6 + r (b + 8) * 0.8,
    rotation := r (b + 9) * m.pi * 2 }

/-- `clusters` rebuilt by `createClusters`: 4 clusters, after the nebula
samples. -/
def createClustersList (m : MathPrims) (r : ℕ → ℚ) (w h : ℚ) : List Cluster :=
  (List.range 4).map fun i => mkCluster m r (4564 + 10 * i) w h

/-- One dust record (lines 399-412): 8 random samples per particle; drift is
not tied to the centre. -/
structure Dust where
  x : ℚ
  y : ℚ
  size : ℚ
  opacity : ℚ
  vx : ℚ
  vy : ℚ
  pulseSpeed : ℚ
  pulsePhase : ℚ

/-- One iteration of the dust loop (`createSpaceDust`, lines 396-413). -/
def mkDust (m : MathPrims) (r : ℕ → ℚ) (b : ℕ) (w h : ℚ) : Dust :=
  { x := r b * w,
    y := r (b + 1) * h,
    size := r (b + 2) * 1.5 + 0.5,
    opacity := 0.05 + r (b + 3) * 0.1,
    vx := (r (b + 4) - 0.5) * 0.1,
    vy := (r (b + 5) - 0.5) * 0.1,
    pulseSpeed := 0.003 + r (b + 6) * 0.005,
    pulsePhase := r (b + 7) * m.pi * 2 }

/-- `spaceDust` rebuilt by `createSpaceDust`: 80 particles, after the
cluster samples. -/
def createSpaceDustList (m : MathPrims) (r : ℕ → ℚ) (w h : ℚ) : List Dust :=
  (List.range 80).map fun i => mkDust m r (4604 + 8 * i) w h

/-- The four particle arrays after one `createStars()` call. -/
structure StarField where
  stars : List Star
  nebulas : List Nebula
  clusters : List Cluster
  dust : List Dust

/-- `createStars()` (lines 240-324): rebuilds all four particle arrays for a
`w × h` canvas.  This is also the step run 250 ms after the last resize
event (`resizeCanvas`, lines 229-238). -/
def createStars (m : MathPrims) (r : ℕ → ℚ) (w h : ℚ) : StarField :=
  { stars := createStarsList m r w h,
    nebulas := createNebulasList m r w h,
    clusters := createClustersList m r w h,
    dust := createSpaceDustList m r w h }

/-- The claimed position bound: inside `[-10, w+10] × [-10, h+10]`. -/
def inBounds (w h x y : ℚ) : Prop :=
  -10 ≤ x ∧ x ≤ w + 10 ∧ -10 ≤ y ∧ y ≤ h + 10

/-! ## Concrete sample inputs used by witnesses and counterexamples -/

/-- A sample current location. -/
def sampleUrl : Url :=
  { protocol := "https:", hostname := "site.example", port := "",
    href := "https://site.example/" }

/-- A sample idle page state. -/
def sampleState : PTState :=
  { location := sampleUrl, title := "Home", bodyClasses := ["page-loaded"],
    main := some { html := "home content", cls := [] },
    header := some { html := "logo", cls := [] },
    nav := some "<nav></nav>", overlayPresent := true, overlayActive := false,
    history := [], scrollY := 0, isTransitioning := false, pendingLoad := none }

/-- The sample state with a transition already in progress. -/
def transState : PTState := { sampleState with isTransitioning := true }

/-- A sample state whose optional regions are all absent. -/
def bareState : PTState :=
  { location := sampleUrl, title := "Bare", bodyClasses := [], main := none,
    header := none, nav := none, overlayPresent := false, overlayActive := false,
    history := [], scrollY := 0, isTransitioning := false, pendingLoad := none }

/-- The document of a sample 404 error page. -/
def notFoundDoc : Document :=
  { title := "Not Found", bodyClasses := [], main := some { html := "error page", cls := [] },
    header := none, nav := none }

/-- A sample `DOMParser` producing the 404 document. -/
def notFoundParse : String → Document := fun _ => notFoundDoc

/-- A link with the same hostname as `sampleState` but a different scheme and
port. -/
def portLink : Link :=
  { href := some "http://site.example:8080/page", protocol := "http:",
    hostname := "site.example", port := "8080", target := none, download := false }

/-- A link whose `href` attribute is absent. -/
def absentHrefLink : Link :=
  { href := none, protocol := "https:", hostname := "site.example", port := "",
    target := none, download := false }

/-- A sample bounding rectangle. -/
def sampleRect : Rect := { top := 0, bottom := 5 }

/-! # Theorems -/

/-- C3: a successful link-click transition pushes a `{url}` entry onto the
session history, leaves the location equal to the requested URL, and sets the
document title to the fetched document's title. -/
theorem updatePage_location_history_title (parse : String → Document)
    (s : PTState) (html url : String) :
    (updatePage parse s html url).location.href = url ∧
    (updatePage parse s html url).history = url :: s.history ∧
    (updatePage parse s html url).title = (parse html).title :=
  ⟨rfl, rfl, rfl⟩

/-- C2 (corrected part): on the pop-state path a response with a non-success
status is not treated as a failure: no reload is requested and the error
page's content is spliced into the document. -/
theorem popstate_bad_status_not_reloaded :
    (popFetch notFoundParse sampleState "https://site.example/missing"
        (FetchResult.success false "<html>")).pendingLoad = none ∧
    (popFetch notFoundParse sampleState "https://site.example/missing"
        (FetchResult.success false "<html>")).title = "Not Found" :=
  ⟨rfl, rfl⟩

/-- C2 (amended): on the link-click path both a network error and a
non-success status assign `window.location.href` to the requested URL; on the
pop-state path a network error requests a reload; and the state produced by
the ensuing full page load has the transitioning flag false, so the flag is
not left permanently true. -/
theorem fetch_failure_fallbacks (parse : String → Document) (s : PTState)
    (url body : String) (loc : Url) (d : Document) :
    fetchPage parse s url FetchResult.fail
      = { s with pendingLoad := some (PendingLoad.assign url) } ∧
    fetchPage parse s url (FetchResult.success false body)
      = { s with pendingLoad := some (PendingLoad.assign url) } ∧
    popFetch parse s url FetchResult.fail
      = { s with pendingLoad := some PendingLoad.reload } ∧
    (pageLoadState loc d).isTransitioning = false :=
  ⟨rfl, rfl, rfl, rfl⟩

/-- C8: `ParticleSystem.destroy` always raises a ReferenceError on the
undeclared variable `shootingStarIntervalId` after cancelling the animation
frame, leaving the resize, visibilitychange and pageshow listeners attached
and the canvas in the document — contradicting the documented destroy
behaviour. -/
theorem destroy_raises_and_leaks (s : ParticleState) :
    (ParticleSystem.destroy s).2
      = some (JsError.referenceError "shootingStarIntervalId") ∧
    (ParticleSystem.destroy s).1.resizeListener = s.resizeListener ∧
    (ParticleSystem.destroy s).1.visibilityListener = s.visibilityListener ∧
    (ParticleSystem.destroy s).1.pageshowListener = s.pageshowListener ∧
    (ParticleSystem.destroy s).1.canvasInDoc = s.canvasInDoc := by
  have hA : varDeclared "animationId" = true := by decide
  have hS : varDeclared "shootingStarIntervalId" = false := by decide
  cases hH : s.animationHandle <;>
    simp [ParticleSystem.destroy, hA, hS, hH]

/-- C6 (corrected part): clicking the header of an inactive timeline item
when no `.timeline-container` element exists runs the scheduled scroll check
into a thrown TypeError — a DOM lookup that is not guarded. -/
theorem timeline_container_lookup_throws :
    (timelineClickFull ∅ 0 false none sampleRect).2
      = some (Except.error (JsError.typeError "container is null")) := by
  rfl

/-- C4: a click on an anchor with an absent href, a different hostname, a
fragment / `mailto:` / `tel:` href, `target="_blank"`, or a `download`
attribute is skipped: default navigation is not prevented, no fetch is
issued and the state is unchanged. -/
theorem link_skip_conditions (s : PTState) (l : Link)
    (h : l.href = none ∨ l.hostname ≠ s.location.hostname ∨
        strStartsWith (l.href.getD "") "#" = true ∨
        strStartsWith (l.href.getD "") "mailto:" = true ∨
        strStartsWith (l.href.getD "") "tel:" = true ∨
        l.target = some "_blank" ∨ l.download = true) :
    handleLinkClickStep s (some l) = (s, []) := by
  have hs : shouldSkip s l = true := by
    simp only [shouldSkip, Bool.or_eq_true, bne_iff_ne, beq_iff_eq]
    rcases h with h | h | h | h | h | h | h <;> simp [h, strFalsy]
  simp [handleLinkClickStep, hs]

/-- C4 witness: a link without an href attribute is skipped. -/
theorem link_skip_conditions_witness :
    handleLinkClickStep sampleState (some absentHrefLink) = (sampleState, []) :=
  link_skip_conditions sampleState absentHrefLink (Or.inl rfl)

/-- C5 (corrected part): a link sharing the hostname of the current page but
differing in scheme and port — hence not same-origin — is nevertheless
intercepted: default navigation is cancelled and a fetch is scheduled. -/
theorem cross_port_link_intercepted :
    (handleLinkClickStep sampleState (some portLink)).2
      = [Effect.preventDefault,
         Effect.scheduleFetch "http://site.example:8080/page"] ∧
    portLink.protocol ≠ sampleState.location.protocol ∧
    portLink.port ≠ sampleState.location.port := by
  refine ⟨rfl, ?_, ?_⟩ <;> decide

/-- C5 (amended): the transition layer intercepts a link click only when the
link's hostname equals the current document's hostname; scheme and port are
not compared. -/
theorem intercept_requires_hostname_match (s : PTState) (l : Link)
    (h : fetchCount (handleLinkClickStep s (some l)).2 ≠ 0) :
    l.hostname = s.location.hostname := by
  by_cases hs : shouldSkip s l
  · exact absurd (by simp [handleLinkClickStep, hs, fetchCount]) h
  · by_contra hne
    apply hs
    simp only [shouldSkip, Bool.or_eq_true, bne_iff_ne]
    exact Or.inl (Or.inl (Or.inl (Or.inl (Or.inl (Or.inl (Or.inr hne))))))

/-- C5 amended witness: the intercepted cross-port link does share the
hostname. -/
theorem intercept_requires_hostname_match_witness :
    portLink.hostname = sampleState.location.hostname :=
  intercept_requires_hostname_match sampleState portLink (by decide)

/-- C6 (amended): the DOM lookups of the update step and of the timeline
initializer are guarded — an absent main or header region leaves that region
unchanged, and an absent header together with an absent nav leaves the nav
absent — while the `.timeline-container` lookup of the timeline
scroll-into-view step is the one unguarded lookup: it throws when the
container is absent. -/
theorem guarded_dom_lookups (parse : String → Document) (s : PTState)
    (html url : String) (rect : Rect) :
    ((s.main = none ∨ (parse html).main = none) →
      (updatePage parse s html url).main = s.main) ∧
    ((s.header = none ∨ (parse html).header = none) →
      (updatePage parse s html url).header = s.header) ∧
    ((s.header = none ∧ s.nav = none) →
      (updatePage parse s html url).nav = none) ∧
    timelineScrollStep none rect
      = Except.error (JsError.typeError "container is null") := by
  refine ⟨?_, ?_, ?_, rfl⟩
  · intro h
    rcases h with h | h <;>
      cases hm : s.main <;> cases hd : (parse html).main <;>
        simp_all [updatePage, spliceRegions]
  · intro h
    rcases h with h | h <;>
      cases hm : s.header <;> cases hd : (parse html).header <;>
        simp_all [updatePage, spliceRegions]
  · rintro ⟨h1, h2⟩
    cases hn : (parse html).nav <;> cases hh : (parse html).header <;>
      simp_all [updatePage, spliceRegions]

/-- C6 amended witness: with every optional region absent the update step
leaves them absent, and the unguarded container lookup throws. -/
theorem guarded_dom_lookups_witness :
    (updatePage notFoundParse bareState "x" "u").main = bareState.main ∧
    (updatePage notFoundParse bareState "x" "u").header = bareState.header ∧
    (updatePage notFoundParse bareState "x" "u").nav = none ∧
    timelineScrollStep none sampleRect
      = Except.error (JsError.typeError "container is null") := by
  have t := guarded_dom_lookups notFoundParse bareState "x" "u" sampleRect
  exact ⟨t.1 (Or.inl rfl), t.2.1 (Or.inl rfl), t.2.2.1 ⟨rfl, rfl⟩, t.2.2.2⟩

/-- While a transition is in progress, every navigation event is handled by
an immediate return. -/
theorem navStep_transitioning (s : PTState) (e : NavEvent)
    (h : s.isTransitioning = true) : navStep s e = (s, []) := by
  cases e with
  | click l =>
    cases l with
    | none => rfl
    | some l =>
      have hs : shouldSkip s l = true := by simp [shouldSkip, h]
      simp [navStep, handleLinkClickStep, hs]
  | pop => simp [navStep, handlePopStateStep, h]

/-- While a transition is in progress, a whole event sequence is a no-op. -/
theorem navRun_transitioning (s : PTState) (es : List NavEvent)
    (h : s.isTransitioning = true) : navRun s es = (s, []) := by
  induction es with
  | nil => rfl
  | cons e es ih => simp [navRun, navStep_transitioning s e h, ih]

/-- Each event either does nothing, or schedules exactly one fetch and moves
the state from not-transitioning to transitioning. -/
theorem navStep_cases (s : PTState) (e : NavEvent) :
    navStep s e = (s, []) ∨
    (fetchCount (navStep s e).2 = 1 ∧ (navStep s e).1.isTransitioning = true ∧
      s.isTransitioning = false) := by
  cases e with
  | pop =>
    by_cases h : s.isTransitioning
    · exact Or.inl (by simp [navStep, handlePopStateStep, h])
    · have hF : s.isTransitioning = false := by simpa using h
      exact Or.inr
        (by simp [navStep, handlePopStateStep, hF, fetchCount, isFetchEffect])
  | click l =>
    cases l with
    | none => exact Or.inl rfl
    | some l =>
      by_cases h : shouldSkip s l
      · exact Or.inl (by simp [navStep, handleLinkClickStep, h])
      · have hT : s.isTransitioning = false := by
          cases hb : s.isTransitioning
          · rfl
          · exact absurd (by simp [shouldSkip, hb]) h
        refine Or.inr ?_
        simp [navStep, handleLinkClickStep, h, navigateTo, hT, fetchCount,
          isFetchEffect]

/-- C1: across any sequence of link-click and popstate events, at most one
fetch is ever scheduled (so at most one transition is in progress); while the
transitioning flag is set every event is dropped without any state change or
fetch; and an event can schedule a fetch only from a state whose flag is
false. -/
theorem transition_reentrancy_guard (s : PTState) (es : List NavEvent) :
    fetchCount (navRun s es).2 ≤ 1 ∧
    (s.isTransitioning = true → navRun s es = (s, [])) ∧
    (∀ e, fetchCount (navStep s e).2 ≠ 0 → s.isTransitioning = false) := by
  refine ⟨?_, navRun_transitioning s es, ?_⟩
  · induction es generalizing s with
    | nil => simp [navRun, fetchCount]
    | cons e es ih =>
      rcases navStep_cases s e with h | ⟨h1, h2, _h3⟩
      · simpa [navRun, h, fetchCount] using ih s
      · have hrest := navRun_transitioning (navStep s e).1 es h2
        simp [navRun, hrest, fetchCount] at h1 ⊢
        omega
  · intro e he
    rcases navStep_cases s e with h | ⟨_, _, h3⟩
    · rw [h] at he
      simp [fetchCount] at he
    · exact h3

/-- C1 witness: with a transition in progress, a popstate event followed by a
link click leaves the state untouched and schedules nothing; the fetch bound
holds. -/
theorem transition_reentrancy_guard_witness :
    fetchCount (navRun transState [NavEvent.pop, NavEvent.click (some portLink)]).2 ≤ 1 ∧
    navRun transState [NavEvent.pop, NavEvent.click (some portLink)]
      = (transState, []) := by
  have t := transition_reentrancy_guard transState
    [NavEvent.pop, NavEvent.click (some portLink)]
  exact ⟨t.1, t.2.1 rfl⟩

/-- The `initTimeline` click handler sends any state to the empty selection
or to the singleton of the clicked item. -/
theorem timelineClick_eq (active : Finset ℕ) (i : ℕ) :
    timelineClick active i = if i ∈ active then ∅ else {i} := by
  unfold timelineClick
  by_cases h : i ∈ active <;> simp [h, Finset.filter_eq']

/-- The duplicated handler from `reinitializeScripts` computes the same
result. -/
theorem timelineClickReinit_eq (active : Finset ℕ) (i : ℕ) :
    timelineClickReinit active i = if i ∈ active then ∅ else {i} := by
  unfold timelineClickReinit
  by_cases h : i ∈ active <;> simp [h]

/-- C7: both timeline click handlers keep at most one item active from any
prior state; clicking item B while exactly A is active leaves exactly B
active (so A inactive); clicking an already-active item leaves no item
active. -/
theorem timeline_accordion (active : Finset ℕ) (i A B : ℕ) (hAB : A ≠ B) :
    (timelineClick active i).card ≤ 1 ∧
    (timelineClickReinit active i).card ≤ 1 ∧
    (i ∈ active → timelineClick active i = ∅) ∧
    (i ∈ active → timelineClickReinit active i = ∅) ∧
    timelineClick {A} B = {B} ∧
    timelineClickReinit {A} B = {B} ∧
    A ∉ timelineClick {A} B := by
  have hB : B ∉ ({A} : Finset ℕ) := by simp [Ne.symm hAB]
  refine ⟨?_, ?_, ?_, ?_, ?_, ?_, ?_⟩
  · rw [timelineClick_eq]; split <;> simp
  · rw [timelineClickReinit_eq]; split <;> simp
  · intro h; simp [timelineClick_eq, h]
  · intro h; simp [timelineClickReinit_eq, h]
  · simp [timelineClick_eq, hB]
  · simp [timelineClickReinit_eq, hB]
  · simp [timelineClick_eq, hB, hAB]

/-- C7 witness: from the state where only item 0 is active, clicking item 1
activates exactly item 1; clicking item 0 again would deactivate it. -/
theorem timeline_accordion_witness :
    (timelineClick {0} 1).card ≤ 1 ∧
    (timelineClickReinit {0} 1).card ≤ 1 ∧
    ((1 : ℕ) ∈ ({0} : Finset ℕ) → timelineClick {0} 1 = ∅) ∧
    ((1 : ℕ) ∈ ({0} : Finset ℕ) → timelineClickReinit {0} 1 = ∅) ∧
    timelineClick {0} 1 = {1} ∧
    timelineClickReinit {0} 1 = {1} ∧
    (0 : ℕ) ∉ timelineClick {0} 1 :=
  timeline_accordion ({0} : Finset ℕ) 1 0 1 (by decide)

/-- A uniform sample scaled to a nonnegative extent stays inside the claimed
slack of 10 on each side. -/
theorem rand_pos_bounds {t w : ℚ} (h0 : 0 ≤ t) (h1 : t < 1) (hw : 0 ≤ w) :
    -10 ≤ t * w ∧ t * w ≤ w + 10 := by
  have hnn : 0 ≤ t * w := mul_nonneg h0 hw
  have hle : t * w ≤ 1 * w := mul_le_mul_of_nonneg_right h1.le hw
  constructor <;> linarith

/-- Every star is created inside the canvas. -/
theorem mkStar_inBounds (m : MathPrims) (r : ℕ → ℚ) (b : ℕ) (w h : ℚ)
    (p : StarParams) (layer : StarLayer) (hr : ∀ n, 0 ≤ r n ∧ r n < 1)
    (hw : 0 ≤ w) (hh : 0 ≤ h) :
    inBounds w h (mkStar m r b w h p layer).x (mkStar m r b w h p layer).y := by
  have hx := rand_pos_bounds (hr b).1 (hr b).2 hw
  have hy := rand_pos_bounds (hr (b + 1)).1 (hr (b + 1)).2 hh
  exact ⟨hx.1, hx.2, hy.1, hy.2⟩

/-- Every nebula is created inside the canvas. -/
theorem mkNebula_inBounds (m : MathPrims) (r : ℕ → ℚ) (b : ℕ) (w h : ℚ)
    (hr : ∀ n, 0 ≤ r n ∧ r n < 1) (hw : 0 ≤ w) (hh : 0 ≤ h) :
    inBounds w h (mkNebula m r b w h).x (mkNebula m r b w h).y := by
  have hx := rand_pos_bounds (hr (b + 1)).1 (hr (b + 1)).2 hw
  have hy := rand_pos_bounds (hr (b + 2)).1 (hr (b + 2)).2 hh
  exact ⟨hx.1, hx.2, hy.1, hy.2⟩

/-- Every cluster is created inside the canvas. -/
theorem mkCluster_inBounds (m : MathPrims) (r : ℕ → ℚ) (b : ℕ) (w h : ℚ)
    (hr : ∀ n, 0 ≤ r n ∧ r n < 1) (hw : 0 ≤ w) (hh : 0 ≤ h) :
    inBounds w h (mkCluster m r b w h).x (mkCluster m r b w h).y := by
  have hx := rand_pos_bounds (hr (b + 1)).1 (hr (b + 1)).2 hw
  have hy := rand_pos_bounds (hr (b + 2)).1 (hr (b + 2)).2 hh
  exact ⟨hx.1, hx.2, hy.1, hy.2⟩

/-- Every dust particle is created inside the canvas. -/
theorem mkDust_inBounds (m : MathPrims) (r : ℕ → ℚ) (b : ℕ) (w h : ℚ)
    (hr : ∀ n, 0 ≤ r n ∧ r n < 1) (hw : 0 ≤ w) (hh : 0 ≤ h) :
    inBounds w h (mkDust m r b w h).x (mkDust m r b w h).y := by
  have hx := rand_pos_bounds (hr b).1 (hr b).2 hw
  have hy := rand_pos_bounds (hr (b + 1)).1 (hr (b + 1)).2 hh
  exact ⟨hx.1, hx.2, hy.1, hy.2⟩

/-- C9: immediately after `createStars` rebuilds the particle arrays for a
`w × h` canvas, every particle of every set — stars, nebulas, clusters and
dust — is positioned inside `[-10, w+10] × [-10, h+10]`. -/
theorem createStars_positions (m : MathPrims) (r : ℕ → ℚ) (w h : ℚ)
    (hr : ∀ n, 0 ≤ r n ∧ r n < 1) (hw : 0 ≤ w) (hh : 0 ≤ h) :
    (∀ p ∈ (createStars m r w h).stars, inBounds w h p.x p.y) ∧
    (∀ p ∈ (createStars m r w h).nebulas, inBounds w h p.x p.y) ∧
    (∀ p ∈ (createStars m r w h).clusters, inBounds w h p.x p.y) ∧
    (∀ p ∈ (createStars m r w h).dust, inBounds w h p.x p.y) := by
  refine ⟨?_, ?_, ?_, ?_⟩ <;> intro p hp
  · simp only [createStars, createStarsList, List.mem_append, List.mem_map,
      List.mem_range] at hp
    rcases hp with (⟨i, _, rfl⟩ | ⟨i, _, rfl⟩) | ⟨i, _, rfl⟩ <;>
      exact mkStar_inBounds m r _ w h _ _ hr hw hh
  · simp only [createStars, createNebulasList, List.mem_map,
      List.mem_range] at hp
    obtain ⟨i, _, rfl⟩ := hp
    exact mkNebula_inBounds m r _ w h hr hw hh
  · simp only [createStars, createClustersList, List.mem_map,
      List.mem_range] at hp
    obtain ⟨i, _, rfl⟩ := hp
    exact mkCluster_inBounds m r _ w h hr hw hh
  · simp only [createStars, createSpaceDustList, List.mem_map,
      List.mem_range] at hp
    obtain ⟨i, _, rfl⟩ := hp
    exact mkDust_inBounds m r _ w h hr hw hh

/-- C9 witness: a concrete regeneration on a 640 × 480 canvas with a
degenerate sample stream keeps every particle inside the bounds. -/
theorem createStars_positions_witness :
    (∀ p ∈ (createStars ⟨id, 0⟩ (fun _ => 0) 640 480).stars,
        inBounds 640 480 p.x p.y) ∧
    (∀ p ∈ (createStars ⟨id, 0⟩ (fun _ => 0) 640 480).nebulas,
        inBounds 640 480 p.x p.y) ∧
    (∀ p ∈ (createStars ⟨id, 0⟩ (fun _ => 0) 640 480).clusters,
        inBounds 640 480 p.x p.y) ∧
    (∀ p ∈ (createStars ⟨id, 0⟩ (fun _ => 0) 640 480).dust,
        inBounds 640 480 p.x p.y) :=
  createStars_positions ⟨id, 0⟩ (fun _ => 0) 640 480
    (fun _ => ⟨le_refl 0, by norm_num⟩) (by norm_num) (by norm_num)

/-- C10: a link-click transition whose fetch fails (network error or
non-success status) leaves the document title, the main and header markup,
the nav region and the session history exactly as they were before the
navigation began. -/
theorem failed_fetch_preserves_document (parse : String → Document)
    (s : PTState) (url : String) (fr : FetchResult)
    (hs : s.isTransitioning = false)
    (hf : fr = FetchResult.fail ∨ ∃ b, fr = FetchResult.success false b) :
    (fetchPage parse (navigateTo s url).1 url fr).title = s.title ∧
    (fetchPage parse (navigateTo s url).1 url fr).main.map Region.html
      = s.main.map Region.html ∧
    (fetchPage parse (navigateTo s url).1 url fr).header.map Region.html
      = s.header.map Region.html ∧
    (fetchPage parse (navigateTo s url).1 url fr).nav = s.nav ∧
    (fetchPage parse (navigateTo s url).1 url fr).history = s.history := by
  rcases hf with rfl | ⟨b, rfl⟩ <;>
    cases hm : s.main <;>
      simp [fetchPage, navigateTo, hs, hm]

/-- C10 witness: a concrete failed navigation from the sample state changes
none of the protected document parts. -/
theorem failed_fetch_preserves_document_witness :
    (fetchPage notFoundParse (navigateTo sampleState "u").1 "u"
        FetchResult.fail).title = sampleState.title ∧
    (fetchPage notFoundParse (navigateTo sampleState "u").1 "u"
        FetchResult.fail).main.map Region.html
      = sampleState.main.map Region.html ∧
    (fetchPage notFoundParse (navigateTo sampleState "u").1 "u"
        FetchResult.fail).header.map Region.html
      = sampleState.header.map Region.html ∧
    (fetchPage notFoundParse (navigateTo sampleState "u").1 "u"
        FetchResult.fail).nav = sampleState.nav ∧
    (fetchPage notFoundParse (navigateTo sampleState "u").1 "u"
        FetchResult.fail).history = sampleState.history :=
  failed_fetch_preserves_document notFoundParse sampleState "u"
    FetchResult.fail rfl (Or.inl rfl)

end SiteScripts
